import Mathlib

/-!
Verification of the gallery-preprocessor batch pipeline (src/main.py).

The program shells out to external tools (ffprobe, ffmpeg, cjxl,
realesrgan-ncnn-vulkan) and inspects the filesystem to classify each
per-file transformation.  We model:

* the filesystem as a finite map from path strings to file sizes, plus a
  set of created directories (`FS`);
* the external world as an oracle `Env` mapping a full command line and a
  pre-state to a post-state and a captured process result (`ProcOut`);
* every observable action (process spawn, path existence / size check,
  directory creation, file removal, rename, log-file open) as an `Event`
  accumulated in a trace;
* Python exceptions (KeyError on an unknown format, ValueError when
  unpacking ffprobe output, FileNotFoundError from os.remove / os.rename)
  as the `Except.error` branch of each function result.

Functions keep the source names: `norm`, `get_dimension`,
`batch_transcode` (with its inner `transcode_helper`), `single_upscale`,
`batch_resize` (with its inner `resize_helper`).  Python string helpers
(`os.path.normpath`, `os.path.splitext`, `os.path.dirname`, `int(...)`)
are embedded as `pyNormpath`, `splitextRoot`, `dirname`, `pyInt`.

Scheduling: the thread pool (`ThreadPoolExecutor` + `as_completed`) is
modelled by running the per-item helpers sequentially in submission
order; `future.result()` re-raising a worker exception is modelled by
`firstErrorOr`, which surfaces the first errored item.  Completion-order
nondeterminism is not modelled; no claim depends on result ordering.
-/

namespace GalleryPre

/-! ## Filesystem model -/

structure FS where
  files : List (String × Nat)
  dirs : List String
deriving DecidableEq, Repr

def FS.fileExists (fs : FS) (p : String) : Bool :=
  (fs.files.lookup p).isSome

def FS.dirExists (fs : FS) (p : String) : Bool :=
  fs.dirs.contains p

/-- Model of `os.path.exists`: true for files and directories alike. -/
def FS.pathExists (fs : FS) (p : String) : Bool :=
  fs.fileExists p || fs.dirExists p

/-- Model of `os.path.getsize` (callers only use it on existing paths). -/
def FS.size (fs : FS) (p : String) : Nat :=
  ((fs.files.lookup p).getD 0)

def FS.write (fs : FS) (p : String) (sz : Nat) : FS :=
  { fs with files := (p, sz) :: fs.files.filter (fun e => e.1 != p) }

def FS.remove (fs : FS) (p : String) : FS :=
  { fs with files := fs.files.filter (fun e => e.1 != p) }

def FS.mkdir (fs : FS) (p : String) : FS :=
  { fs with dirs := p :: fs.dirs }

/-! ## Observable events and the external-process oracle -/

inductive Event where
  | spawn (cmd : String)
  | check (path : String)
  | mkdirEv (path : String)
  | removeEv (path : String)
  | renameEv (src dst : String)
  | openLog (name : String)
deriving DecidableEq, Repr

def Event.isSpawn : Event → Bool
  | .spawn _ => true
  | _ => false

/-- Captured result of one `subprocess.run` invocation. -/
structure ProcOut where
  returncode : Int
  stdout : String
  stderr : String
deriving DecidableEq, Repr

/-- The external world: a command line, run against a filesystem state,
yields a new filesystem state and a process result.  All external tools
are untrusted black boxes, so theorems quantify over `Env`. -/
structure Env where
  run : String → FS → FS × ProcOut

/-! ## Global configuration (the module-level `bool_env` dict) -/

def bool_env_logging : Bool := true

def bool_env_overwrite : Bool := false

/-! ## String primitives

Core `String.splitOn`, `String.replace`, `String.startsWith` and
`String.trim` do not reduce inside the kernel, so the Python string
operations are embedded structurally over `List Char`. -/

def isPrefixChars : List Char → List Char → Bool
  | [], _ => true
  | _ :: _, [] => false
  | p :: ps, c :: cs => p == c && isPrefixChars ps cs

/-- Model of `str.startswith`. -/
def strStartsWith (pre s : String) : Bool :=
  isPrefixChars pre.data s.data

/-- Greedy left-to-right non-overlapping replacement, fueled for
structural recursion (fuel = input length suffices for non-empty
patterns; the code only replaces `"ffmpeg"` and `"\\"`). -/
def replaceCharsAux (pat repl : List Char) : Nat → List Char → List Char
  | 0, l => l
  | _ + 1, [] => []
  | fuel + 1, c :: cs =>
    if isPrefixChars pat (c :: cs) then
      repl ++ replaceCharsAux pat repl fuel (List.drop pat.length (c :: cs))
    else c :: replaceCharsAux pat repl fuel cs

/-- Model of `str.replace(pat, repl)`. -/
def strReplace (pat repl s : String) : String :=
  String.mk (replaceCharsAux pat.data repl.data s.data.length s.data)

def splitCharAux (sep : Char) : List Char → List String
  | [] => [""]
  | c :: rest =>
    let r := splitCharAux sep rest
    if c = sep then "" :: r
    else
      match r with
      | [] => [String.mk [c]]
      | s :: ss => String.mk (c :: s.data) :: ss

/-- Model of Python `str.split(sep)` for a one-character separator
(the code only splits on `"/"` and `"x"`). -/
def splitOnChar (sep : Char) (s : String) : List String :=
  splitCharAux sep s.data

/-- Model of `sep.join(parts)` for a one-character separator. -/
def intercalateChar (sep : Char) : List String → String
  | [] => ""
  | [s] => s
  | s :: rest => s ++ String.mk [sep] ++ intercalateChar sep rest

def isPySpace (c : Char) : Bool :=
  c == ' ' || c == '\t' || c == '\n' || c == '\r' || c == '\x0b' || c == '\x0c'

/-- Model of `str.strip()` (as applied by Python `int`). -/
def pyStrip (s : String) : String :=
  String.mk (((s.data.dropWhile isPySpace).reverse.dropWhile isPySpace).reverse)

/-! ## Python string/path helpers -/

/-- One step of the component loop inside `posixpath.normpath`. -/
def normpathStep (initSlashes : Nat) (acc : List String) (comp : String) : List String :=
  if comp == "" || comp == "." then acc
  else if comp != ".." || (initSlashes == 0 && acc.isEmpty)
      || (!acc.isEmpty && acc.getLast? == some "..") then acc ++ [comp]
  else if !acc.isEmpty then acc.dropLast
  else acc

/-- Model of `posixpath.normpath`. -/
def pyNormpath (path : String) : String :=
  if path = "" then "."
  else
    let initSlashes : Nat :=
      if strStartsWith "//" path ∧ ¬ strStartsWith "///" path then 2
      else if strStartsWith "/" path then 1 else 0
    let comps := (splitOnChar '/' path).foldl (normpathStep initSlashes) []
    let res := String.mk (List.replicate initSlashes '/') ++ intercalateChar '/' comps
    if res = "" then "." else res

/-- `norm` from main.py: `os.path.normpath` then backslash → slash. -/
def norm (path : String) : String :=
  strReplace "\\" "/" (pyNormpath path)

/-- The root component of `os.path.splitext` applied to a single path
segment (no slashes): drop the extension after the last dot, except when
every character before that dot is itself a dot. -/
def splitextRoot (s : String) : String :=
  if s.data.contains '.' then
    let extLen := (s.data.reverse.takeWhile (fun c => c ≠ '.')).length
    let root := s.data.take (s.data.length - extLen - 1)
    if root.any (fun c => c ≠ '.') then String.mk root else s
  else s

/-- Model of `posixpath.dirname`. -/
def dirname (p : String) : String :=
  if p.data.contains '/' then
    let tailLen := (p.data.reverse.takeWhile (fun c => c ≠ '/')).length
    let head := p.data.take (p.data.length - tailLen)
    if head.any (fun c => c ≠ '/') then
      String.mk ((head.reverse.dropWhile (fun c => c = '/')).reverse)
    else String.mk head
  else ""

def digitsToNat (ds : List Char) : Nat :=
  ds.foldl (fun n c => n * 10 + (c.toNat - '0'.toNat)) 0

/-- Model of Python `int(str)`: strip surrounding whitespace, optional
sign, then decimal digits; `none` models the ValueError raise. -/
def pyInt (s : String) : Option Int :=
  match (pyStrip s).data with
  | [] => none
  | '-' :: ds =>
    if ds ≠ [] ∧ ds.all Char.isDigit then some (-(digitsToNat ds : Int)) else none
  | '+' :: ds =>
    if ds ≠ [] ∧ ds.all Char.isDigit then some ((digitsToNat ds : Int)) else none
  | ds =>
    if ds.all Char.isDigit then some ((digitsToNat ds : Int)) else none

/-- `math.ceil(a / b)` on integers (exact rational ceiling for `b ≠ 0`). -/
def ceilDiv (a b : Int) : Int := -((-a).fdiv b)

/-! ## Command lines (the f-string templates of main.py, pre-substituted) -/

def ffprobeCmd (path : String) : String :=
  "ffprobe -v error -select_streams v:0 -show_entries stream=width,height -of csv=s=x:p=0 \""
    ++ path ++ "\""

def avifCmd (inp owFlag out : String) : String :=
  "ffmpeg -i \"" ++ inp
    ++ "\" -c:v libsvtav1 -pix_fmt yuv420p10le -crf 24 -preset 6 -vf \"scale=ceil(iw/2)*2:ceil(ih/2)*2\""
    ++ owFlag ++ " \"" ++ out ++ "\""

def jxlCmd (inp out : String) : String :=
  "cjxl -q 100 -e 8 \"" ++ inp ++ "\" \"" ++ out ++ "\""

def pngCmd (inp owFlag out : String) : String :=
  "ffmpeg -i \"" ++ inp ++ "\" -c:v png -compression_level 6" ++ owFlag ++ " \"" ++ out ++ "\""

/-- The `commands` dict lookup followed by the startswith-directed
`.format(...)` call; `none` models the KeyError raised for a format
that has no command template (e.g. `"mp4"`). -/
def transcodeCmd (format inp owFlag out : String) : Option String :=
  if format = "avif" then some (avifCmd inp owFlag out)
  else if format = "jxl" then some (jxlCmd inp out)
  else if format = "png" then some (pngCmd inp owFlag out)
  else none

def realesrganCmd (inp out : String) (scale : Int) (model : String) : String :=
  "realesrgan-ncnn-vulkan -i \"" ++ inp ++ "\" -o \"" ++ out ++ "\" -s " ++ toString scale
    ++ " -n " ++ model ++ " -f png"

/-- The shared `ffmpeg -i "{inp}" -vf "{filt}" -y "{out}"` template used by
the corrective downscale and by the direct-downscale branches. -/
def ffmpegVfCmd (inp filt out : String) : String :=
  "ffmpeg -i \"" ++ inp ++ "\" -vf \"" ++ filt ++ "\" -y \"" ++ out ++ "\""

/-! ## Output-path derivation (lines 152-161 and 314-323 of main.py) -/

/-- Replace the extension of the final path segment
(`path_elements[-1] = os.path.splitext(path_elements[-1])[0] + "." + ext`). -/
def replaceLastSeg (ext : String) : List String → List String
  | [] => []
  | [a] => [splitextRoot a ++ "." ++ ext]
  | a :: b :: rest => a :: replaceLastSeg ext (b :: rest)

/-- The output-path derivation shared by `batch_transcode` (suffix = ext =
format) and `batch_resize` (suffix = "upscaled", ext = "png"): split the
normalized input on "/", append `_suffix` to the first segment when the
path has more than one segment, replace the last segment's extension. -/
def deriveOutputPath (suffix ext : String) (path : String) : String :=
  let elems := splitOnChar '/' (norm path)
  let elems2 :=
    if elems.length > 1 then
      match elems with
      | [] => ([] : List String)
      | e0 :: rest => (e0 ++ "_" ++ suffix) :: rest
    else elems
  intercalateChar '/' (replaceLastSeg ext elems2)

/-- Output path of `batch_transcode` for one input. -/
def transcodeOutputPath (format path : String) : String :=
  deriveOutputPath format format path

/-- Output path of `batch_resize` for one input. -/
def resizeOutputPath (path : String) : String :=
  deriveOutputPath "upscaled" "png" path

/-- The `if (out_dir := os.path.dirname(output_path)) and (not
os.path.exists(out_dir)): os.makedirs(out_dir)` step. -/
def ensureOutDir (fs : FS) (outPath : String) : FS × List Event :=
  let d := dirname outPath
  if d ≠ "" then
    if fs.pathExists d then (fs, [Event.check d])
    else (fs.mkdir d, [Event.check d, Event.mkdirEv d])
  else (fs, [])

def ensureOutDirs (fs : FS) : List String → FS × List Event
  | [] => (fs, [])
  | p :: rest =>
    let r1 := ensureOutDir fs p
    let r2 := ensureOutDirs r1.1 rest
    (r2.1, r1.2 ++ r2.2)

/-! ## get_dimension (lines 97-117) -/

/-- `get_dimension`: probe a file with ffprobe.  Non-zero exit yields the
`(-1, -1)` sentinel; on zero exit the stdout is split on "x" and unpacked
into two `int(...)` calls, either of which may raise ValueError
(modelled as `Except.error`). -/
def get_dimension (env : Env) (fs : FS) (path : String) :
    Except String (Int × Int) × FS × List Event :=
  let r := env.run (ffprobeCmd path) fs
  let evs := [Event.spawn (ffprobeCmd path)]
  if r.2.returncode ≠ 0 then (.ok (-1, -1), r.1, evs)
  else
    match splitOnChar 'x' r.2.stdout with
    | [w, h] =>
      match pyInt w, pyInt h with
      | some wi, some hi => (.ok (wi, hi), r.1, evs)
      | _, _ => (.error "ValueError: invalid literal for int", r.1, evs)
    | _ => (.error "ValueError: unpack mismatch", r.1, evs)

/-! ## batch_transcode (lines 120-212) -/

/-- The inner `__helper` of `batch_transcode` (lines 165-194): skip when
the output already exists and overwrite is off; otherwise build the
command (KeyError for unknown formats), run it (threads == 1 swaps
`ffmpeg` for `ffpb` and streams output; threads > 1 appends to a log
file), then judge success solely by output existence and size. -/
def transcode_helper (env : Env) (fs : FS) (format : String) (overwrite : Bool)
    (overwrite_flag : String) (threads : Nat) (input_path output_path : String) :
    Except String (String × String) × FS × List Event :=
  if fs.pathExists output_path ∧ ¬ overwrite then
    (.ok ("skipped", input_path), fs, [Event.check output_path])
  else
    match transcodeCmd format input_path overwrite_flag output_path with
    | none => (.error ("KeyError: " ++ format), fs, [Event.check output_path])
    | some cmd0 =>
      let cmd := if threads > 1 then cmd0 else strReplace "ffmpeg" "ffpb" cmd0
      let logEvs :=
        if threads > 1 then
          if bool_env_logging then [Event.openLog ("transcode_" ++ format ++ ".log")]
          else []
        else []
      let r := env.run cmd fs
      let evs := [Event.check output_path] ++ logEvs ++ [Event.spawn cmd]
      if r.1.pathExists output_path then
        if r.1.size output_path > 0 then
          (.ok ("", ""), r.1, evs ++ [Event.check output_path, Event.check output_path])
        else
          (.ok ("failed", input_path), r.1, evs ++ [Event.check output_path, Event.check output_path])
      else (.ok ("failed", input_path), r.1, evs ++ [Event.check output_path])

/-- Sequential execution (the `threads == 1` loop): stops at the first
helper exception, which propagates. -/
def runHelpersSeq (env : Env) (format : String) (overwrite : Bool) (owFlag : String)
    (threads : Nat) (fs : FS) :
    List (String × String) → Except String (List (String × String)) × FS × List Event
  | [] => (.ok [], fs, [])
  | (i, o) :: rest =>
    match transcode_helper env fs format overwrite owFlag threads i o with
    | (.ok r, fs1, e1) =>
      match runHelpersSeq env format overwrite owFlag threads fs1 rest with
      | (.ok rs, fs2, e2) => (.ok (r :: rs), fs2, e1 ++ e2)
      | (.error e, fs2, e2) => (.error e, fs2, e1 ++ e2)
    | (.error e, fs1, e1) => (.error e, fs1, e1)

/-- Thread-pool execution: every submitted worker runs (its filesystem
effects happen), and results are gathered afterwards. -/
def runHelpersPool (env : Env) (format : String) (overwrite : Bool) (owFlag : String)
    (threads : Nat) (fs : FS) :
    List (String × String) → List (Except String (String × String)) × FS × List Event
  | [] => ([], fs, [])
  | (i, o) :: rest =>
    let r1 := transcode_helper env fs format overwrite owFlag threads i o
    let r2 := runHelpersPool env format overwrite owFlag threads r1.2.1 rest
    (r1.1 :: r2.1, r2.2.1, r1.2.2 ++ r2.2.2)

/-- `future.result()` over the gathered futures: the first worker
exception re-raises in the aggregation loop. -/
def firstErrorOr : List (Except String α) → Except String (List α)
  | [] => .ok []
  | .ok a :: rest =>
    match firstErrorOr rest with
    | .ok as_ => .ok (a :: as_)
    | .error e => .error e
  | .error e :: _ => .error e

/-- `return_data[status].append(path)` aggregation: the paths recorded
under one status tag. -/
def collectStatus (st : String) (rs : List (String × String)) : List String :=
  (rs.filter (fun r => r.1 == st)).map (fun r => r.2)

/-- `batch_transcode` (lines 120-212): empty input short-circuits with an
empty report; `avif`/`mp4` force `threads = 1`; output paths are derived
and their directories created up front; per-file work then runs on the
pool (or sequentially) and the failed/skipped path lists are returned. -/
def batch_transcode (env : Env) (fs : FS) (input_paths : List String) (format : String)
    (overwrite : Bool) (threads : Nat) :
    Except String (List String × List String) × FS × List Event :=
  if input_paths.length = 0 then (.ok ([], []), fs, [])
  else
    let threads := if format = "avif" ∨ format = "mp4" then 1 else threads
    let output_paths := input_paths.map (transcodeOutputPath format)
    let dirR := ensureOutDirs fs output_paths
    let overwrite_flag := if overwrite then " -y" else ""
    let pairs := input_paths.zip output_paths
    if threads > 1 then
      let r := runHelpersPool env format overwrite overwrite_flag threads dirR.1 pairs
      match firstErrorOr r.1 with
      | .ok results =>
        (.ok (collectStatus "failed" results, collectStatus "skipped" results),
          r.2.1, dirR.2 ++ r.2.2)
      | .error e => (.error e, r.2.1, dirR.2 ++ r.2.2)
    else
      match runHelpersSeq env format overwrite overwrite_flag threads dirR.1 pairs with
      | (.ok results, fs2, evs) =>
        (.ok (collectStatus "failed" results, collectStatus "skipped" results),
          fs2, dirR.2 ++ evs)
      | (.error e, fs2, evs) => (.error e, fs2, dirR.2 ++ evs)

/-! ## single_upscale (lines 215-288) -/

/-- The scale computation of `single_upscale` (lines 247-254).  Note the
code applies NO clamp: the ceiling (or max of ceilings) is used as-is.
`width_only` is `target_width != 0 and target_height == 0`; `height_only`
is the mirror image. -/
def computeScale (width height target_width target_height : Int) : Int :=
  if target_width ≠ 0 ∧ target_height = 0 then ceilDiv target_width width
  else if target_width = 0 ∧ target_height ≠ 0 then ceilDiv target_height height
  else max (ceilDiv target_width width) (ceilDiv target_height height)

/-- The corrective-downscale decision (lines 264-274): the chosen ffmpeg
filter, or `none` when no resize is needed. -/
def resizeFilter (width height scale target_width target_height : Int) : Option String :=
  if (target_width ≠ 0 ∧ target_height = 0) ∧ width * scale > target_width then
    some ("scale=" ++ toString target_width ++ ":-1")
  else if (target_width = 0 ∧ target_height ≠ 0) ∧ height * scale > target_height then
    some ("scale=-1:" ++ toString target_height)
  else if ¬ (target_width ≠ 0 ∧ target_height = 0) ∧ ¬ (target_width = 0 ∧ target_height ≠ 0)
      ∧ (width * scale > target_width ∨ height * scale > target_height) then
    some ("scale=" ++ toString target_width ++ ":" ++ toString target_height)
  else none

/-- The corrective-downscale replacement step (lines 275-284): ffmpeg
writes the resized image to the temporary sibling `output_path + ".png"`,
then `os.remove(output_path)` deletes the intermediate and
`os.rename` moves the temporary into place.  `os.remove`/`os.rename` on a
missing file raise FileNotFoundError (the `Except.error` branch). -/
def corrective_resize (env : Env) (fs : FS) (output_path filt : String) :
    Except String Unit × FS × List Event :=
  let logEvs := if bool_env_logging then [Event.openLog "upscale.log"] else []
  let cmd := ffmpegVfCmd output_path filt (output_path ++ ".png")
  let r := env.run cmd fs
  let evs := logEvs ++ [Event.spawn cmd]
  if r.1.fileExists output_path then
    let fs2 := r.1.remove output_path
    if fs2.fileExists (output_path ++ ".png") then
      let sz := fs2.size (output_path ++ ".png")
      let fs3 := (fs2.remove (output_path ++ ".png")).write output_path sz
      (.ok (), fs3,
        evs ++ [Event.removeEv output_path, Event.renameEv (output_path ++ ".png") output_path])
    else (.error "FileNotFoundError: rename", fs2, evs ++ [Event.removeEv output_path])
  else (.error "FileNotFoundError: remove", r.1, evs)

/-- `single_upscale` (lines 215-288): fail fast when both targets are 0;
probe the input (non-zero exit returns the stderr text as the failure
reason); compute the scale and pick the model (`realesrgan-x4plus-anime`
exactly when scale == 4); run the upscaler; correctively downscale when
the result overshoots the target; finally report success iff the output
path exists (its size is NOT checked here). -/
def single_upscale (env : Env) (fs : FS) (input_path output_path : String)
    (width height target_width target_height : Int) :
    Except String (Bool × String) × FS × List Event :=
  if target_width = 0 ∧ target_height = 0 then
    (.ok (false, "Both target width and height cannot be 0"), fs, [])
  else
    let pr := env.run (ffprobeCmd input_path) fs
    let evs1 := [Event.spawn (ffprobeCmd input_path)]
    if pr.2.returncode ≠ 0 then (.ok (false, pr.2.stderr), pr.1, evs1)
    else
      let scale := computeScale width height target_width target_height
      let model := if scale = 4 then "realesrgan-x4plus-anime" else "realesr-animevideov3"
      let upCmd := realesrganCmd input_path output_path scale model
      let ur := env.run upCmd pr.1
      let evs2 := evs1 ++ [Event.spawn upCmd]
      match resizeFilter width height scale target_width target_height with
      | none =>
        if ur.1.pathExists output_path then
          (.ok (true, input_path), ur.1, evs2 ++ [Event.check output_path])
        else
          (.ok (false, "Downscaling after upscaling failed"), ur.1,
            evs2 ++ [Event.check output_path])
      | some filt =>
        match corrective_resize env ur.1 output_path filt with
        | (.error e, fs3, evs3) => (.error e, fs3, evs2 ++ evs3)
        | (.ok _, fs3, evs3) =>
          if fs3.pathExists output_path then
            (.ok (true, input_path), fs3, evs2 ++ evs3 ++ [Event.check output_path])
          else
            (.ok (false, "Downscaling after upscaling failed"), fs3,
              evs2 ++ evs3 ++ [Event.check output_path])

/-! ## batch_resize (lines 291-369) -/

/-- The inner `__helper` of `batch_resize` (lines 325-360): an existing
output (with the global overwrite flag off) short-circuits to the
SUCCESS value `(True, "")` — there is no skipped status here.  Otherwise
probe dimensions, fail on the sentinel, downscale directly when the
image already meets the single target dimension, else upscale. -/
def resize_helper (env : Env) (fs : FS) (target_width target_height : Int)
    (input_path output_path : String) :
    Except String (Bool × String) × FS × List Event :=
  if fs.pathExists output_path ∧ ¬ bool_env_overwrite then
    (.ok (true, ""), fs, [Event.check output_path])
  else
    match get_dimension env fs input_path with
    | (.error e, fs1, e1) => (.error e, fs1, [Event.check output_path] ++ e1)
    | (.ok (width, height), fs1, e1) =>
      let evs := [Event.check output_path] ++ e1
      if width = -1 ∨ height = -1 then (.ok (false, input_path), fs1, evs)
      else if target_width ≠ 0 ∧ width ≥ target_width then
        let logEvs := if bool_env_logging then [Event.openLog "downscale.log"] else []
        let cmd := ffmpegVfCmd input_path ("scale=" ++ toString target_width ++ ":-1") output_path
        let r := env.run cmd fs1
        let evs := evs ++ logEvs ++ [Event.spawn cmd]
        if r.1.pathExists output_path then (.ok (true, ""), r.1, evs ++ [Event.check output_path])
        else (.ok (false, input_path), r.1, evs ++ [Event.check output_path])
      else if target_height ≠ 0 ∧ height ≥ target_height then
        let logEvs := if bool_env_logging then [Event.openLog "downscale.log"] else []
        let cmd := ffmpegVfCmd input_path ("scale=-1:" ++ toString target_height) output_path
        let r := env.run cmd fs1
        let evs := evs ++ logEvs ++ [Event.spawn cmd]
        if r.1.pathExists output_path then (.ok (true, ""), r.1, evs ++ [Event.check output_path])
        else (.ok (false, input_path), r.1, evs ++ [Event.check output_path])
      else
        match single_upscale env fs1 input_path output_path width height
            target_width target_height with
        | (r, fs2, e2) => (r, fs2, evs ++ e2)

/-- Thread-pool execution of the resize helpers (submission order). -/
def resizePoolRun (env : Env) (target_width target_height : Int) (fs : FS) :
    List (String × String) → List (Except String (Bool × String)) × FS × List Event
  | [] => ([], fs, [])
  | (i, o) :: rest =>
    let r1 := resize_helper env fs target_width target_height i o
    let r2 := resizePoolRun env target_width target_height r1.2.1 rest
    (r1.1 :: r2.1, r2.2.1, r1.2.2 ++ r2.2.2)

/-- Return value of `batch_resize`.  The code declares
`tuple[list[str], str]` but the empty-input early return (line 313)
yields a bare empty list instead — `emptyList` models that value,
`report` models the declared `(failed, output_folder)` shape. -/
inductive BatchResizeRet where
  | emptyList
  | report (failed : List String) (out_dir : String)
deriving DecidableEq, Repr

/-- `batch_resize` (lines 291-369): empty input returns the bare `[]`;
otherwise derive output paths (creating directories), run the helpers on
the pool, collect inputs whose helper returned `False` into `failed`,
and return them with the first output's directory. -/
def batch_resize (env : Env) (fs : FS) (input_paths : List String) (threads : Nat)
    (target_width target_height : Int) :
    Except String BatchResizeRet × FS × List Event :=
  if input_paths = [] then (.ok .emptyList, fs, [])
  else
    let output_paths := input_paths.map resizeOutputPath
    let dirR := ensureOutDirs fs output_paths
    let pairs := input_paths.zip output_paths
    let r := resizePoolRun env target_width target_height dirR.1 pairs
    match firstErrorOr r.1 with
    | .error e => (.error e, r.2.1, dirR.2 ++ r.2.2)
    | .ok results =>
      let failed := (results.filter (fun x => !x.1)).map (fun x => x.2)
      (.ok (.report failed (dirname (output_paths.headD ""))), r.2.1, dirR.2 ++ r.2.2)

/-! ## Concrete worlds used by witnesses and counterexamples -/

/-- The empty filesystem. -/
def fs0 : FS := ⟨[], []⟩

/-- A world whose every process exits 0 and prints `1920x1080`, touching
no files. -/
def envGoodProbe : Env := ⟨fun _ fs => (fs, ⟨0, "1920x1080", ""⟩)⟩

/-- A world whose every process exits 1 with empty stdout. -/
def envFailProbe : Env := ⟨fun _ fs => (fs, ⟨1, "", "probe error"⟩)⟩

/-- A world whose every process exits 0 with EMPTY stdout. -/
def envEmptyStdout : Env := ⟨fun _ fs => (fs, ⟨0, "", ""⟩)⟩

/-- A world whose every process exits 0, prints `1920x1080`, and creates
the file named `p` with size `sz`. -/
def envCreates (p : String) (sz : Nat) : Env :=
  ⟨fun _ fs => (fs.write p sz, ⟨0, "1920x1080", ""⟩)⟩

/-! ## Arithmetic lemmas about `ceilDiv` -/

lemma floor_intCast_div (n : Int) {b : Int} (hb : 0 < b) :
    ⌊(n : ℚ) / (b : ℚ)⌋ = n / b := by
  have hbn : ((b.toNat : ℕ) : ℤ) = b := Int.toNat_of_nonneg hb.le
  have hq : ((b.toNat : ℕ) : ℚ) = (b : ℚ) := by exact_mod_cast hbn
  rw [← hq, Rat.floor_intCast_div_natCast, hbn]

lemma ceilDiv_eq_ceil (a : Int) {b : Int} (hb : 0 < b) :
    ceilDiv a b = ⌈(a : ℚ) / (b : ℚ)⌉ := by
  have h1 : ⌈(a : ℚ) / (b : ℚ)⌉ = -⌊((-a : ℤ) : ℚ) / (b : ℚ)⌋ := by
    rw [show ((-a : ℤ) : ℚ) = -(a : ℚ) by push_cast; ring, neg_div, Int.floor_neg, neg_neg]
  rw [h1, floor_intCast_div _ hb]
  unfold ceilDiv
  rw [Int.fdiv_eq_ediv _ hb.le]

/-! ## Claim C1 — upscale scale factor -/

/-- Claim C1, amended: in the upscale stage, for every probed input with
positive width and height, the computed scale factor equals
`ceil(targetWidth / width)` for width-only targets,
`ceil(targetHeight / height)` for height-only targets, and the maximum
of the two ceilings for both-dimension targets.  The code applies NO
upper clamp (see the counterexample for a scale of 5). -/
theorem c1_scale_formula (w h tw th : Int) (hw : 0 < w) (hh : 0 < h) :
    (tw ≠ 0 → th = 0 → computeScale w h tw th = ⌈(tw : ℚ) / (w : ℚ)⌉) ∧
    (tw = 0 → th ≠ 0 → computeScale w h tw th = ⌈(th : ℚ) / (h : ℚ)⌉) ∧
    (tw ≠ 0 → th ≠ 0 →
      computeScale w h tw th = max ⌈(tw : ℚ) / (w : ℚ)⌉ ⌈(th : ℚ) / (h : ℚ)⌉) := by
  refine ⟨fun h1 h2 => ?_, fun h1 h2 => ?_, fun h1 h2 => ?_⟩
  · rw [computeScale, if_pos ⟨h1, h2⟩, ceilDiv_eq_ceil _ hw]
  · rw [computeScale, if_neg (fun hc => hc.1 h1), if_pos ⟨h1, h2⟩, ceilDiv_eq_ceil _ hh]
  · rw [computeScale, if_neg (fun hc => h2 hc.2), if_neg (fun hc => h1 hc.1),
      ceilDiv_eq_ceil _ hw, ceilDiv_eq_ceil _ hh]

theorem c1_scale_formula_witness :
    computeScale 1200 900 2500 0 = ⌈(2500 : ℚ) / (1200 : ℚ)⌉ :=
  (c1_scale_formula 1200 900 2500 0 (by decide) (by decide)).1 (by decide) rfl

/-- Claim C1, counterexample to the clamp: a 100×100 image with a target
width of 500 yields scale 5 (> 4), and `single_upscale` passes `-s 5` to
the upscaler verbatim. -/
theorem c1_no_clamp_counterexample :
    computeScale 100 100 500 0 = 5 ∧ ¬ computeScale 100 100 500 0 ≤ 4 ∧
    Event.spawn (realesrganCmd "in.png" "out.png" 5 "realesr-animevideov3")
      ∈ (single_upscale envGoodProbe fs0 "in.png" "out.png" 100 100 500 0).2.2 := by
  refine ⟨by decide, by decide, ?_⟩
  decide

/-! ## Claim C4 — invalid-request fast-fail -/

/-- Claim C4, amended: `single_upscale` called with both targets 0
returns the failure value immediately — the state is unchanged and the
event trace is empty (no process spawn, no filesystem access).  The
batch resize stage, however, checks the output path and probes
dimensions BEFORE this fast-fail fires (see the counterexample). -/
theorem c4_fail_fast_single_upscale (env : Env) (fs : FS) (i o : String) (w h : Int) :
    single_upscale env fs i o w h 0 0 =
      (.ok (false, "Both target width and height cannot be 0"), fs, []) := by
  simp [single_upscale]

/-- Claim C4, counterexample: `batch_resize` with `targetWidth = 0` and
`targetHeight = 0` spawns an ffprobe process for the input file (and
touches the filesystem) before any failure is reported. -/
theorem c4_batch_probe_counterexample :
    (batch_resize envFailProbe fs0 ["a/b.png"] 4 0 0).1 =
      .ok (.report ["a/b.png"] "a_upscaled") ∧
    ((batch_resize envFailProbe fs0 ["a/b.png"] 4 0 0).2.2).filter Event.isSpawn =
      [Event.spawn (ffprobeCmd "a/b.png")] := by
  exact ⟨rfl, by decide⟩

/-! ## Claim C5 — empty batch -/

/-- Claim C5 (code bug on the resize side): an empty input list makes
both batch operations return immediately with no side effects (state
unchanged, empty trace); `batch_transcode` returns the declared
`([], [])` shape, but `batch_resize` returns the bare empty list, which
is NOT the declared `(failed, out_dir)` tuple shape. -/
theorem c5_empty_batch :
    (∀ env fs format ow threads,
      batch_transcode env fs [] format ow threads = (.ok ([], []), fs, [])) ∧
    (∀ env fs threads tw th,
      batch_resize env fs [] threads tw th = (.ok .emptyList, fs, [])) ∧
    (∀ failed dir, BatchResizeRet.emptyList ≠ BatchResizeRet.report failed dir) := by
  refine ⟨fun env fs format ow threads => ?_, fun env fs threads tw th => ?_,
    fun failed dir hx => BatchResizeRet.noConfusion hx⟩
  · simp [batch_transcode]
  · simp [batch_resize]

/-! ## Claim C7 — output-path derivation -/

/-- Claim C7: output-path derivation is a pure function of
(input path, suffix, extension): repeated calls agree; splitting the
normalized input on "/" rewrites the first segment to
`first_suffix` exactly when there is more than one segment; and the
final segment's extension is replaced by the target extension. -/
theorem c7_path_derivation (p v ext : String) :
    (deriveOutputPath v ext p = deriveOutputPath v ext p) ∧
    (∀ e0 rest, splitOnChar '/' (norm p) = e0 :: rest →
      deriveOutputPath v ext p =
        intercalateChar '/'
          (replaceLastSeg ext (if rest = [] then [e0] else (e0 ++ "_" ++ v) :: rest))) ∧
    (∀ l a, replaceLastSeg ext (l ++ [a]) = l ++ [splitextRoot a ++ "." ++ ext]) := by
  refine ⟨rfl, fun e0 rest hsplit => ?_, fun l a => ?_⟩
  · rw [deriveOutputPath]
    rw [hsplit]
    cases rest with
    | nil => simp
    | cons r rs => simp
  · induction l with
    | nil => simp [replaceLastSeg]
    | cons x xs ih =>
      cases xs with
      | nil => simp [replaceLastSeg]
      | cons y ys => simpa [replaceLastSeg] using ih

theorem c7_path_derivation_witness :
    deriveOutputPath "jxl" "jxl" "pack/img.png" =
      intercalateChar '/' (replaceLastSeg "jxl" ["pack" ++ "_" ++ "jxl", "img.png"]) :=
  (c7_path_derivation "pack/img.png" "jxl" "jxl").2.1 "pack" ["img.png"] rfl

/-! ## Claim C9 — dimension probe -/

/-- Claim C9, amended: `get_dimension` returns the `(-1, -1)` sentinel
whenever the probe process exits non-zero (judged solely by the exit
code, never by the output text); on a zero exit it returns the parsed
pair when stdout splits on "x" into exactly two integer fields; but when
the zero-exit stdout does NOT have that shape the unpacking raises
ValueError past the boundary, so the function is not total. -/
theorem c9_get_dimension (env : Env) (fs : FS) (path : String) :
    ((env.run (ffprobeCmd path) fs).2.returncode ≠ 0 →
      get_dimension env fs path =
        (.ok (-1, -1), (env.run (ffprobeCmd path) fs).1, [Event.spawn (ffprobeCmd path)])) ∧
    (∀ w h wi hi, (env.run (ffprobeCmd path) fs).2.returncode = 0 →
      splitOnChar 'x' (env.run (ffprobeCmd path) fs).2.stdout = [w, h] →
      pyInt w = some wi → pyInt h = some hi →
      get_dimension env fs path =
        (.ok (wi, hi), (env.run (ffprobeCmd path) fs).1, [Event.spawn (ffprobeCmd path)])) ∧
    (∀ s, (env.run (ffprobeCmd path) fs).2.returncode = 0 →
      splitOnChar 'x' (env.run (ffprobeCmd path) fs).2.stdout = [s] →
      (get_dimension env fs path).1 = .error "ValueError: unpack mismatch") := by
  refine ⟨fun hrc => ?_, fun w h wi hi hrc hsplit hw hh => ?_, fun s hrc hsplit => ?_⟩
  · simp [get_dimension, hrc]
  · simp [get_dimension, hrc, hsplit, hw, hh]
  · simp [get_dimension, hrc, hsplit]

theorem c9_get_dimension_witness :
    get_dimension envFailProbe fs0 "f.png" =
      (.ok (-1, -1), fs0, [Event.spawn (ffprobeCmd "f.png")]) ∧
    get_dimension envGoodProbe fs0 "f.png" =
      (.ok (1920, 1080), fs0, [Event.spawn (ffprobeCmd "f.png")]) ∧
    (get_dimension envEmptyStdout fs0 "f.png").1 = .error "ValueError: unpack mismatch" :=
  ⟨(c9_get_dimension envFailProbe fs0 "f.png").1 (by decide),
   (c9_get_dimension envGoodProbe fs0 "f.png").2.1 "1920" "1080" 1920 1080 rfl rfl rfl rfl,
   (c9_get_dimension envEmptyStdout fs0 "f.png").2.2 "" rfl rfl⟩

/-- Claim C9, counterexample: a probe that exits 0 with empty stdout
makes `get_dimension` raise ValueError (unpacking `"".split("x")`),
instead of returning a result value. -/
theorem c9_raises_counterexample :
    (get_dimension envEmptyStdout fs0 "f.png").1 = .error "ValueError: unpack mismatch" ∧
    (envEmptyStdout.run (ffprobeCmd "f.png") fs0).2.returncode = 0 := ⟨rfl, rfl⟩

/-! ## Claim C2 — success verification policy -/

/-- Claim C2, amended: the transcode helper judges an attempted transform
successful if and only if the output path exists with size strictly
greater than zero in the post-state — for every environment, hence
independently of the tool exit code.  `single_upscale`, by contrast,
judges success solely by output existence: its size is never inspected,
so a zero-byte output is still reported successful (see the
counterexample). -/
theorem c2_verification :
    (∀ env fs format ow owFlag threads i o cmd0,
      ¬ (fs.pathExists o = true ∧ ow = false) →
      transcodeCmd format i owFlag o = some cmd0 →
      transcode_helper env fs format ow owFlag threads i o =
        (let cmd := if 1 < threads then cmd0 else strReplace "ffmpeg" "ffpb" cmd0
         let fs1 := (env.run cmd fs).1
         ((.ok (if fs1.pathExists o = true ∧ fs1.size o > 0 then ("", "") else ("failed", i)) :
            Except String (String × String)),
          fs1,
          [Event.check o]
            ++ (if 1 < threads then [Event.openLog ("transcode_" ++ format ++ ".log")] else [])
            ++ [Event.spawn cmd]
            ++ (if fs1.pathExists o = true then [Event.check o, Event.check o]
                else [Event.check o])))) ∧
    (∀ env fs i o w h tw th b m fs2 evs,
      ¬ (tw = 0 ∧ th = 0) →
      (env.run (ffprobeCmd i) fs).2.returncode = 0 →
      single_upscale env fs i o w h tw th = (.ok (b, m), fs2, evs) →
      (b = true ↔ fs2.pathExists o = true)) := by
  constructor
  · intro env fs format ow owFlag threads i o cmd0 hns hcmd
    rw [transcode_helper, if_neg (by simpa using hns), hcmd]
    dsimp only
    by_cases ht : 1 < threads
    · simp only [ht, if_true, bool_env_logging]
      by_cases hex : (env.run cmd0 fs).1.pathExists o = true
      · by_cases hsz : (env.run cmd0 fs).1.size o > 0 <;> simp [hex, hsz]
      · simp [hex]
    · simp only [ht, if_false]
      by_cases hex : (env.run (strReplace "ffmpeg" "ffpb" cmd0) fs).1.pathExists o = true
      · by_cases hsz : (env.run (strReplace "ffmpeg" "ffpb" cmd0) fs).1.size o > 0 <;>
          simp [hex, hsz]
      · simp [hex]
  · intro env fs i o w h tw th b m fs2 evs hns hrc heq
    rw [single_upscale, if_neg hns] at heq
    dsimp only at heq
    rw [if_neg (by simp [hrc])] at heq
    cases hrf : resizeFilter w h (computeScale w h tw th) tw th with
    | none =>
      rw [hrf] at heq
      dsimp only at heq
      by_cases hex :
          ((env.run (realesrganCmd i o (computeScale w h tw th)
            (if computeScale w h tw th = 4 then "realesrgan-x4plus-anime"
             else "realesr-animevideov3")) (env.run (ffprobeCmd i) fs).1).1).pathExists o = true
      · rw [if_pos hex] at heq
        obtain ⟨⟨hb, hm⟩, hfs, hevs⟩ := by
          simpa only [Prod.mk.injEq, Except.ok.injEq] using heq
        subst hb hfs
        simpa using hex
      · rw [if_neg hex] at heq
        obtain ⟨⟨hb, hm⟩, hfs, hevs⟩ := by
          simpa only [Prod.mk.injEq, Except.ok.injEq] using heq
        subst hb hfs
        simpa using hex
    | some filt =>
      rw [hrf] at heq
      dsimp only at heq
      rcases hcr : corrective_resize env
          ((env.run (realesrganCmd i o (computeScale w h tw th)
            (if computeScale w h tw th = 4 then "realesrgan-x4plus-anime"
             else "realesr-animevideov3")) (env.run (ffprobeCmd i) fs).1).1) o filt
        with ⟨r3, fs3, evs3⟩
      rw [hcr] at heq
      cases r3 with
      | error e => exact absurd heq (by simp)
      | ok u =>
        dsimp only at heq
        by_cases hex : fs3.pathExists o = true
        · rw [if_pos hex] at heq
          obtain ⟨⟨hb, hm⟩, hfs, hevs⟩ := by
            simpa only [Prod.mk.injEq, Except.ok.injEq] using heq
          subst hb hfs
          simpa using hex
        · rw [if_neg hex] at heq
          obtain ⟨⟨hb, hm⟩, hfs, hevs⟩ := by
            simpa only [Prod.mk.injEq, Except.ok.injEq] using heq
          subst hb hfs
          simpa using hex

theorem c2_verification_witness :
    transcode_helper (envCreates "a.jxl" 5) fs0 "jxl" false "" 4 "a.png" "a.jxl" =
      (.ok ("", ""), fs0.write "a.jxl" 5,
        [Event.check "a.jxl", Event.openLog "transcode_jxl.log",
         Event.spawn (jxlCmd "a.png" "a.jxl"), Event.check "a.jxl", Event.check "a.jxl"]) ∧
    (true = true ↔
      ((single_upscale (envCreates "out.png" 7) fs0 "in.png" "out.png" 10 10 20 0).2.1).pathExists
          "out.png" = true) :=
  ⟨c2_verification.1 (envCreates "a.jxl" 5) fs0 "jxl" false "" 4 "a.png" "a.jxl"
      (jxlCmd "a.png" "a.jxl") (by decide) rfl,
   c2_verification.2 (envCreates "out.png" 7) fs0 "in.png" "out.png" 10 10 20 0 true "in.png"
      ((single_upscale (envCreates "out.png" 7) fs0 "in.png" "out.png" 10 10 20 0).2.1)
      ((single_upscale (envCreates "out.png" 7) fs0 "in.png" "out.png" 10 10 20 0).2.2)
      (by decide) rfl rfl⟩

/-- Claim C2, counterexample: an upscale run whose tool leaves a
ZERO-byte file at the output path is reported successful by
`single_upscale` (it checks only existence), contradicting the claimed
uniform size-greater-than-zero verification. -/
theorem c2_zero_size_counterexample :
    (single_upscale (envCreates "out.png" 0) fs0 "in.png" "out.png" 10 10 20 0).1 =
      .ok (true, "in.png") ∧
    ((single_upscale (envCreates "out.png" 0) fs0 "in.png" "out.png" 10 10 20 0).2.1).size
        "out.png" = 0 := ⟨rfl, rfl⟩

/-! ## Claim C3 — worker isolation -/

/-- A world in which probing `f0.png` yields malformed stdout (so that
item's operation raises ValueError) while every other command succeeds
with stdout `10x10`. -/
def envCrashF0 : Env :=
  ⟨fun cmd fs =>
    if cmd = ffprobeCmd "f0.png" then (fs, ⟨0, "", ""⟩) else (fs, ⟨0, "10x10", ""⟩)⟩

/-- Claim C3, amended: a per-item exception is NOT caught and converted
into a Failed outcome; it propagates out of the batch call when the
corresponding future's result is read, so no report is produced at all.
Conjunct 1: in the transcode batch, the KeyError raised inside the
helper for a format without a command template aborts the whole run.
Conjunct 2: in the resize batch, the ValueError raised while unpacking
probe output aborts the whole run. -/
theorem c3_exception_propagates :
    (∀ env fs p rest threads,
      (batch_transcode env fs (p :: rest) "mp4" true threads).1 =
        .error ("KeyError: mp4")) ∧
    (∀ env fs p tw th threads,
      (ensureOutDirs fs [resizeOutputPath p]).1.pathExists (resizeOutputPath p) = false →
      (∀ fsx, env.run (ffprobeCmd p) fsx = (fsx, ⟨0, "", ""⟩)) →
      (batch_resize env fs [p] threads tw th).1 = .error "ValueError: unpack mismatch") := by
  constructor
  · intro env fs p rest threads
    rw [batch_transcode, if_neg (by simp)]
    dsimp only
    rw [if_neg (by simp)]
    simp only [List.map_cons, List.zip_cons_cons, runHelpersSeq]
    rw [transcode_helper, if_neg (by simp), transcodeCmd]
    simp
  · intro env fs p tw th threads hex hrun
    rw [batch_resize, if_neg (by simp)]
    dsimp only
    simp only [List.map_cons, List.map_nil, List.zip_cons_cons, List.zip_nil_right,
      resizePoolRun]
    rw [resize_helper, if_neg (by simp [hex])]
    rw [get_dimension, hrun]
    dsimp only
    rw [if_neg (by simp)]
    rfl

theorem c3_exception_propagates_witness :
    (batch_transcode envFailProbe fs0 ["a.png"] "mp4" true 4).1 = .error ("KeyError: mp4") ∧
    (batch_resize envEmptyStdout fs0 ["b.png"] 4 2500 0).1 =
      .error "ValueError: unpack mismatch" :=
  ⟨c3_exception_propagates.1 envFailProbe fs0 "a.png" [] 4,
   c3_exception_propagates.2 envEmptyStdout fs0 "b.png" 2500 0 4 (by decide) (fun fsx => rfl)⟩

/-- Claim C3, counterexample: a 10-item resize batch in which exactly one
item's operation raises (the probe of `f0.png` returns unparsable
stdout) does not yield 1 Failed and 9 independent outcomes — the whole
batch call raises and no report is returned. -/
theorem c3_ten_item_counterexample :
    (batch_resize envCrashF0 fs0
      ["f0.png", "f1.png", "f2.png", "f3.png", "f4.png", "f5.png", "f6.png", "f7.png",
        "f8.png", "f9.png"] 4 2500 0).1 = .error "ValueError: unpack mismatch" := rfl

/-! ## Shared lemmas for the skip-if-exists claims (C6, C10) -/

lemma mkdir_pathExists (fs : FS) (d q : String) (hq : fs.pathExists q = true) :
    (fs.mkdir d).pathExists q = true := by
  simp only [FS.pathExists, FS.fileExists, FS.dirExists, FS.mkdir, List.contains_cons,
    Bool.or_eq_true] at hq ⊢
  tauto

lemma ensureOutDir_pathExists (fs : FS) (pa q : String) (hq : fs.pathExists q = true) :
    (ensureOutDir fs pa).1.pathExists q = true := by
  rw [ensureOutDir]
  split
  · split
    · exact hq
    · exact mkdir_pathExists fs _ q hq
  · exact hq

lemma ensureOutDir_noSpawn (fs : FS) (pa : String) :
    (ensureOutDir fs pa).2.filter Event.isSpawn = [] := by
  rw [ensureOutDir]
  split
  · split <;> rfl
  · rfl

lemma ensureOutDirs_pathExists :
    ∀ (l : List String) (fs : FS) (q : String), fs.pathExists q = true →
      (ensureOutDirs fs l).1.pathExists q = true
  | [], _, _, hq => hq
  | pa :: rest, fs, q, hq =>
    ensureOutDirs_pathExists rest (ensureOutDir fs pa).1 q (ensureOutDir_pathExists fs pa q hq)

lemma ensureOutDirs_noSpawn :
    ∀ (l : List String) (fs : FS), (ensureOutDirs fs l).2.filter Event.isSpawn = [] := by
  intro l
  induction l with
  | nil => intro fs; rfl
  | cons pa rest ih =>
    intro fs
    simp only [ensureOutDirs, List.filter_append, ensureOutDir_noSpawn, ih, List.nil_append]

lemma filter_isSpawn_checks (f : String → String) :
    ∀ l : List String, (l.map fun p => Event.check (f p)).filter Event.isSpawn = [] := by
  intro l
  induction l with
  | nil => rfl
  | cons p rest ih => simp [List.filter_cons, Event.isSpawn, ih]

lemma transcode_helper_skip (env : Env) (fs : FS) (format owFlag : String) (threads : Nat)
    (i o : String) (ho : fs.pathExists o = true) :
    transcode_helper env fs format false owFlag threads i o =
      (.ok ("skipped", i), fs, [Event.check o]) := by
  rw [transcode_helper, if_pos ⟨ho, by simp⟩]

lemma resize_helper_skip (env : Env) (fs : FS) (tw th : Int) (i o : String)
    (ho : fs.pathExists o = true) :
    resize_helper env fs tw th i o = (.ok (true, ""), fs, [Event.check o]) := by
  rw [resize_helper, if_pos ⟨ho, by simp [bool_env_overwrite]⟩]

lemma runHelpersSeq_allskip (env : Env) (format owFlag : String) (threads : Nat) :
    ∀ (inputs : List String) (fs : FS),
      (∀ p ∈ inputs, fs.pathExists (transcodeOutputPath format p) = true) →
      runHelpersSeq env format false owFlag threads fs
          (inputs.zip (inputs.map (transcodeOutputPath format))) =
        (.ok (inputs.map fun p => ("skipped", p)), fs,
          inputs.map fun p => Event.check (transcodeOutputPath format p))
  | [], fs, _ => rfl
  | p :: rest, fs, hall => by
    have hzip : (p :: rest).zip ((p :: rest).map (transcodeOutputPath format)) =
        (p, transcodeOutputPath format p) :: rest.zip (rest.map (transcodeOutputPath format)) :=
      rfl
    rw [hzip]
    simp only [runHelpersSeq]
    rw [transcode_helper_skip env fs format owFlag threads p _ (hall p (by simp))]
    dsimp only
    rw [runHelpersSeq_allskip env format owFlag threads rest fs
      (fun q hq => hall q (by simp [hq]))]
    rfl

lemma runHelpersPool_allskip (env : Env) (format owFlag : String) (threads : Nat) :
    ∀ (inputs : List String) (fs : FS),
      (∀ p ∈ inputs, fs.pathExists (transcodeOutputPath format p) = true) →
      runHelpersPool env format false owFlag threads fs
          (inputs.zip (inputs.map (transcodeOutputPath format))) =
        ((inputs.map fun p => ("skipped", p)).map Except.ok, fs,
          inputs.map fun p => Event.check (transcodeOutputPath format p))
  | [], fs, _ => rfl
  | p :: rest, fs, hall => by
    have hzip : (p :: rest).zip ((p :: rest).map (transcodeOutputPath format)) =
        (p, transcodeOutputPath format p) :: rest.zip (rest.map (transcodeOutputPath format)) :=
      rfl
    rw [hzip]
    simp only [runHelpersPool]
    rw [transcode_helper_skip env fs format owFlag threads p _ (hall p (by simp))]
    dsimp only
    rw [runHelpersPool_allskip env format owFlag threads rest fs
      (fun q hq => hall q (by simp [hq]))]
    rfl

lemma resizePoolRun_allskip (env : Env) (tw th : Int) :
    ∀ (inputs : List String) (fs : FS),
      (∀ p ∈ inputs, fs.pathExists (resizeOutputPath p) = true) →
      resizePoolRun env tw th fs (inputs.zip (inputs.map resizeOutputPath)) =
        ((inputs.map fun p => ((true : Bool), ("" : String))).map Except.ok, fs,
          inputs.map fun p => Event.check (resizeOutputPath p))
  | [], fs, _ => rfl
  | p :: rest, fs, hall => by
    have hzip : (p :: rest).zip ((p :: rest).map resizeOutputPath) =
        (p, resizeOutputPath p) :: rest.zip (rest.map resizeOutputPath) := rfl
    rw [hzip]
    simp only [resizePoolRun]
    rw [resize_helper_skip env fs tw th p _ (hall p (by simp))]
    dsimp only
    rw [resizePoolRun_allskip env tw th rest fs (fun q hq => hall q (by simp [hq]))]
    rfl

lemma firstErrorOr_map_ok : ∀ l : List α,
    firstErrorOr (l.map fun a => (Except.ok a : Except String α)) = .ok l
  | [] => rfl
  | a :: rest => by
    simp only [List.map_cons, firstErrorOr, firstErrorOr_map_ok rest]

lemma collectStatus_failed_of_skipped : ∀ inputs : List String,
    collectStatus "failed" (inputs.map fun p => ("skipped", p)) = [] := by
  intro inputs
  induction inputs with
  | nil => rfl
  | cons p rest ih => simpa [collectStatus, List.filter_cons] using ih

lemma collectStatus_skipped_of_skipped : ∀ inputs : List String,
    collectStatus "skipped" (inputs.map fun p => ("skipped", p)) = inputs := by
  intro inputs
  induction inputs with
  | nil => rfl
  | cons p rest ih => simpa [collectStatus, List.filter_cons] using ih

lemma resize_failed_of_skipped : ∀ inputs : List String,
    ((inputs.map fun _ => ((true : Bool), ("" : String))).filter (fun x => !x.1)).map
      (fun x => x.2) = [] := by
  intro inputs
  induction inputs with
  | nil => rfl
  | cons p rest ih => simpa using ih

/-! ## Claim C6 — transcode skip-if-exists and idempotence -/

/-- Claim C6: in the transcode stage, a file whose derived output already
exists while overwrite is false is Skipped with no process spawned and no
state change (conjunct 1, for every environment).  Consequently a run
over inputs whose derived outputs all exist — the state left by a
previous completed run whose tool wrote every output — spawns zero
processes and reports every file as skipped and none as failed
(conjunct 2). -/
theorem c6_skip_idempotence :
    (∀ env fs format owFlag threads i o,
      fs.pathExists o = true →
      transcode_helper env fs format false owFlag threads i o =
        (.ok ("skipped", i), fs, [Event.check o])) ∧
    (∀ env fs inputs format threads,
      (∀ p, p ∈ inputs → fs.pathExists (transcodeOutputPath format p) = true) →
      ∃ fs2 evs,
        batch_transcode env fs inputs format false threads =
          (.ok ([], inputs), fs2, evs) ∧ evs.filter Event.isSpawn = []) := by
  constructor
  · exact fun env fs format owFlag threads i o ho =>
      transcode_helper_skip env fs format owFlag threads i o ho
  · intro env fs inputs format threads hall
    cases inputs with
    | nil => exact ⟨fs, [], by rw [batch_transcode]; rfl, rfl⟩
    | cons p rest =>
      rw [batch_transcode, if_neg (by simp)]
      dsimp only
      have hall2 : ∀ q ∈ p :: rest,
          ((ensureOutDirs fs ((p :: rest).map (transcodeOutputPath format))).1).pathExists
            (transcodeOutputPath format q) = true :=
        fun q hq => ensureOutDirs_pathExists _ fs _ (hall q hq)
      by_cases hf1 : (if format = "avif" ∨ format = "mp4" then 1 else threads) > 1
      · rw [if_pos hf1]
        rw [runHelpersPool_allskip env format _ _ (p :: rest) _ hall2]
        dsimp only
        rw [firstErrorOr_map_ok]
        dsimp only
        rw [collectStatus_failed_of_skipped, collectStatus_skipped_of_skipped]
        refine ⟨_, _, rfl, ?_⟩
        rw [List.filter_append, ensureOutDirs_noSpawn,
          filter_isSpawn_checks (transcodeOutputPath format), List.nil_append]
      · rw [if_neg hf1]
        rw [runHelpersSeq_allskip env format _ _ (p :: rest) _ hall2]
        dsimp only
        rw [collectStatus_failed_of_skipped, collectStatus_skipped_of_skipped]
        refine ⟨_, _, rfl, ?_⟩
        rw [List.filter_append, ensureOutDirs_noSpawn,
          filter_isSpawn_checks (transcodeOutputPath format), List.nil_append]

/-- Filesystem already holding the jxl output of `a/b.png`. -/
def fsWithJxl : FS := ⟨[("a_jxl/b.jxl", 3)], ["a_jxl"]⟩

theorem c6_skip_idempotence_witness :
    transcode_helper envFailProbe fsWithJxl "jxl" false "" 4 "a/b.png" "a_jxl/b.jxl" =
      (.ok ("skipped", "a/b.png"), fsWithJxl, [Event.check "a_jxl/b.jxl"]) ∧
    (∃ fs2 evs,
      batch_transcode envFailProbe fsWithJxl ["a/b.png"] "jxl" false 4 =
        (.ok ([], ["a/b.png"]), fs2, evs) ∧ evs.filter Event.isSpawn = []) :=
  ⟨c6_skip_idempotence.1 envFailProbe fsWithJxl "jxl" "" 4 "a/b.png" "a_jxl/b.jxl" (by decide),
   c6_skip_idempotence.2 envFailProbe fsWithJxl ["a/b.png"] "jxl" 4 (by decide)⟩

/-! ## Claim C10 — the resize stage has no Skipped outcome -/

/-- Claim C10: the resize helper short-circuits a file whose derived
output already exists (overwrite is globally disabled) to the SUCCESS
value `(True, "")` without probing or spawning anything (conjunct 1), and
a batch over such files returns a report whose only content is an empty
failed list plus the output folder — indistinguishable from a batch of
genuine successes (conjunct 2; `BatchResizeRet.report` carries no
skipped collection at all). -/
theorem c10_no_skip_status :
    (∀ env fs tw th i o,
      fs.pathExists o = true →
      resize_helper env fs tw th i o = (.ok (true, ""), fs, [Event.check o])) ∧
    (∀ env fs inputs threads tw th,
      (∀ p, p ∈ inputs → fs.pathExists (resizeOutputPath p) = true) →
      inputs ≠ [] →
      ∃ fs2 evs dir,
        batch_resize env fs inputs threads tw th =
          (.ok (.report [] dir), fs2, evs) ∧ evs.filter Event.isSpawn = []) := by
  constructor
  · exact fun env fs tw th i o ho => resize_helper_skip env fs tw th i o ho
  · intro env fs inputs threads tw th hall hne
    cases inputs with
    | nil => exact absurd rfl hne
    | cons p rest =>
      rw [batch_resize, if_neg (by simp)]
      dsimp only
      have hall2 : ∀ q ∈ p :: rest,
          ((ensureOutDirs fs ((p :: rest).map resizeOutputPath)).1).pathExists
            (resizeOutputPath q) = true :=
        fun q hq => ensureOutDirs_pathExists _ fs _ (hall q hq)
      rw [resizePoolRun_allskip env tw th (p :: rest) _ hall2]
      dsimp only
      rw [firstErrorOr_map_ok]
      dsimp only
      rw [resize_failed_of_skipped]
      refine ⟨_, _, _, rfl, ?_⟩
      rw [List.filter_append, ensureOutDirs_noSpawn, filter_isSpawn_checks resizeOutputPath,
        List.nil_append]

/-- Filesystem already holding the upscaled output of `a/b.png`. -/
def fsWithUpscaled : FS := ⟨[("a_upscaled/b.png", 3)], ["a_upscaled"]⟩

/-! ## Shared lemmas for the corrective-downscale claim (C8) -/

lemma lookup_filter_ne (q : String) : ∀ l : List (String × Nat),
    (l.filter (fun e => e.1 != q)).lookup q = none
  | [] => rfl
  | (k, v) :: rest => by
    by_cases hk : k = q
    · simp only [List.filter_cons, hk]
      simpa using lookup_filter_ne q rest
    · have hkq : (k != q) = true := by simp [hk]
      have hqk : (q == k) = false := beq_eq_false_iff_ne.mpr (Ne.symm hk)
      simp only [List.filter_cons, hkq, if_true, List.lookup, hqk]
      exact lookup_filter_ne q rest

lemma lookup_none_filter (pr : String × Nat → Bool) (q : String) : ∀ l : List (String × Nat),
    l.lookup q = none → (l.filter pr).lookup q = none
  | [] => fun _ => rfl
  | (k, v) :: rest => by
    intro hl
    cases hqk : (q == k) with
    | true => simp [List.lookup, hqk] at hl
    | false =>
      simp only [List.lookup, hqk] at hl
      cases hpr : pr (k, v) with
      | true => simp only [List.filter_cons, hpr, if_true, List.lookup, hqk]
                exact lookup_none_filter pr q rest hl
      | false => simp only [List.filter_cons, hpr, if_false]
                 exact lookup_none_filter pr q rest hl

lemma write_pathExists_self (fs : FS) (p : String) (sz : Nat) :
    (fs.write p sz).pathExists p = true := by
  simp [FS.write, FS.pathExists, FS.fileExists, List.lookup]

lemma append_png_ne (s : String) : (s ++ ".png") ≠ s := by
  intro h
  have := congrArg (fun x => x.data.length) h
  simp at this

/-- After removing the temporary sibling and writing the canonical path,
the temporary sibling is gone. -/
lemma rename_clears_tmp (fs : FS) (out : String) (sz : Nat) :
    ((fs.remove (out ++ ".png")).write out sz).fileExists (out ++ ".png") = false := by
  have hqk : ((out ++ ".png") == out) = false :=
    beq_eq_false_iff_ne.mpr (append_png_ne out)
  simp only [FS.write, FS.remove, FS.fileExists, List.lookup, hqk]
  rw [lookup_none_filter _ _ _ (lookup_filter_ne (out ++ ".png") fs.files)]
  rfl

/-- State after the corrective ffmpeg run of `corrective_resize`. -/
def afterDownscaleTool (env : Env) (fs : FS) (out filt : String) : FS :=
  (env.run (ffmpegVfCmd out filt (out ++ ".png")) fs).1

/-- State after the delete-old-file-then-rename replacement of
`corrective_resize`. -/
def afterReplace (env : Env) (fs : FS) (out filt : String) : FS :=
  let fs2 := (afterDownscaleTool env fs out filt).remove out
  (fs2.remove (out ++ ".png")).write out (fs2.size (out ++ ".png"))

/-! ## Claim C8 — corrective downscale -/

/-- Claim C8: the corrective downscale runs if and only if the upscaled
result overshoots the target in the relevant dimension(s) (conjunct 1);
the chosen ffmpeg filter requests exactly the target geometry
(conjunct 2); and the replacement writes the resized image to the
temporary sibling `output + ".png"`, deletes the old file, then renames
the temporary into place — afterwards the canonical path exists (holding
the renamed file whole) and the temporary is gone, so no partial file is
left at the canonical output path (conjunct 3). -/
theorem c8_corrective_downscale :
    (∀ w h s tw th : Int, (resizeFilter w h s tw th).isSome = true ↔
      ((tw ≠ 0 ∧ th = 0) ∧ w * s > tw) ∨ ((tw = 0 ∧ th ≠ 0) ∧ h * s > th) ∨
      (¬ (tw ≠ 0 ∧ th = 0) ∧ ¬ (tw = 0 ∧ th ≠ 0) ∧ (w * s > tw ∨ h * s > th))) ∧
    (∀ w h s tw th : Int,
      ((tw ≠ 0 ∧ th = 0) → w * s > tw →
        resizeFilter w h s tw th = some ("scale=" ++ toString tw ++ ":-1")) ∧
      ((tw = 0 ∧ th ≠ 0) → h * s > th →
        resizeFilter w h s tw th = some ("scale=-1:" ++ toString th)) ∧
      (¬ (tw ≠ 0 ∧ th = 0) → ¬ (tw = 0 ∧ th ≠ 0) → (w * s > tw ∨ h * s > th) →
        resizeFilter w h s tw th = some ("scale=" ++ toString tw ++ ":" ++ toString th))) ∧
    (∀ env fs out filt,
      (afterDownscaleTool env fs out filt).fileExists out = true →
      ((afterDownscaleTool env fs out filt).remove out).fileExists (out ++ ".png") = true →
      corrective_resize env fs out filt =
        (.ok (), afterReplace env fs out filt,
         [Event.openLog "upscale.log", Event.spawn (ffmpegVfCmd out filt (out ++ ".png")),
          Event.removeEv out, Event.renameEv (out ++ ".png") out]) ∧
      (afterReplace env fs out filt).pathExists out = true ∧
      (afterReplace env fs out filt).fileExists (out ++ ".png") = false) := by
  refine ⟨fun w h s tw th => ?_, fun w h s tw th => ⟨?_, ?_, ?_⟩, fun env fs out filt h1 h2 => ?_⟩
  · rw [resizeFilter]
    split_ifs with hc1 hc2 hc3
    · exact ⟨fun _ => Or.inl hc1, fun _ => rfl⟩
    · exact ⟨fun _ => Or.inr (Or.inl hc2), fun _ => rfl⟩
    · exact ⟨fun _ => Or.inr (Or.inr hc3), fun _ => rfl⟩
    · constructor
      · intro hx; exact absurd hx (by simp)
      · intro hx
        exfalso
        rcases hx with hx | hx | hx
        exacts [hc1 hx, hc2 hx, hc3 hx]
  · intro hc hgt
    rw [resizeFilter, if_pos ⟨hc, hgt⟩]
  · intro hc hgt
    rw [resizeFilter, if_neg (fun hcontra => hcontra.1.1 hc.1), if_pos ⟨hc, hgt⟩]
  · intro hwo hho hor
    rw [resizeFilter, if_neg (fun hcontra => hwo hcontra.1),
      if_neg (fun hcontra => hho hcontra.1), if_pos ⟨hwo, hho, hor⟩]
  · refine ⟨?_, write_pathExists_self _ out _, rename_clears_tmp _ out _⟩
    have h1u : ((env.run (ffmpegVfCmd out filt (out ++ ".png")) fs).1).fileExists out = true := h1
    have h2u : (((env.run (ffmpegVfCmd out filt (out ++ ".png")) fs).1).remove out).fileExists
        (out ++ ".png") = true := h2
    rw [corrective_resize]
    dsimp only
    rw [if_pos h1u]
    rw [if_pos h2u]
    rfl

/-- Filesystem already holding the intermediate upscaled file `o.png`. -/
def fsWithOut : FS := ⟨[("o.png", 5)], []⟩

theorem c8_corrective_downscale_witness :
    resizeFilter 1200 900 3 2500 0 = some ("scale=" ++ toString (2500 : Int) ++ ":-1") ∧
    (corrective_resize (envCreates "o.png.png" 9) fsWithOut "o.png" "scale=2500:-1" =
      (.ok (), afterReplace (envCreates "o.png.png" 9) fsWithOut "o.png" "scale=2500:-1",
       [Event.openLog "upscale.log",
        Event.spawn (ffmpegVfCmd "o.png" "scale=2500:-1" ("o.png" ++ ".png")),
        Event.removeEv "o.png", Event.renameEv ("o.png" ++ ".png") "o.png"]) ∧
      (afterReplace (envCreates "o.png.png" 9) fsWithOut "o.png"
        "scale=2500:-1").pathExists "o.png" = true ∧
      (afterReplace (envCreates "o.png.png" 9) fsWithOut "o.png"
        "scale=2500:-1").fileExists ("o.png" ++ ".png") = false) :=
  ⟨(c8_corrective_downscale.2.1 1200 900 3 2500 0).1 (by decide) (by decide),
   c8_corrective_downscale.2.2 (envCreates "o.png.png" 9) fsWithOut "o.png" "scale=2500:-1"
     (by decide) (by decide)⟩

theorem c10_no_skip_status_witness :
    resize_helper envFailProbe fsWithUpscaled 2500 0 "a/b.png" "a_upscaled/b.png" =
      (.ok (true, ""), fsWithUpscaled, [Event.check "a_upscaled/b.png"]) ∧
    (∃ fs2 evs dir,
      batch_resize envFailProbe fsWithUpscaled ["a/b.png"] 4 2500 0 =
        (.ok (.report [] dir), fs2, evs) ∧ evs.filter Event.isSpawn = []) :=
  ⟨c10_no_skip_status.1 envFailProbe fsWithUpscaled 2500 0 "a/b.png" "a_upscaled/b.png"
      (by decide),
   c10_no_skip_status.2 envFailProbe fsWithUpscaled ["a/b.png"] 4 2500 0 (by decide)
      (by simp)⟩

end GalleryPre
